import Mathlib

/-!
# Verification of the filter-and-aggregate pipeline of `app.py`

Shallow embedding of the Streamlit dashboard `src/app.py` (Marvel Healthcare
Insights Dashboard).  The pipeline being verified:

* lines 81-97: sequential boolean-mask filtering of the loaded DataFrame by an
  inclusive date range and up to three categorical equality filters guarded by
  the `'All'` sentinel;
* lines 128, 171, 206, 222, 231: `groupby(...).size()` aggregations and the
  `sort_values('count', ascending=False).head(10)` top-N views;
* lines 244-247: random sampling of `min(5, len(filtered_data))` rows;
* lines 60-61: the sidebar option list `['All'] + sorted(unique)`;
* lines 126-128 and 263-273: the `year_month` column added to `filtered_data`
  before it is serialized by `to_csv`.

Modelling conventions for the pandas operations the script calls:

* A DataFrame row is a `Record`; a cell that may hold NaN/NaT is an `Option`.
* `series >= ts`, `series <= ts` and `series == value` comparisons yield
  `False` on a missing value (NaN/NaT semantics), so boolean-mask selection
  never keeps a row whose compared cell is missing.
* Boolean-mask selection `df[mask]` is `List.filter`: it keeps rows in their
  original relative order.
* `groupby(key).size()` uses pandas defaults `sort=True, dropna=True`: rows
  whose key cell is missing are dropped, and the surviving group keys are
  emitted in ascending order.
* `sort_values(col, ascending=False)` is implemented by pandas (`nargsort`)
  by reversing the values before the ascending argsort and reversing the
  resulting indexer after, which makes the descending sort *stable*
  (pandas GH#6399): rows tied on the sorted column keep their input order.
  It is modelled as a stable insertion sort descending by the column (exact
  for the stable sort kinds and for numpy's small-partition insertion sort).
* `df.sample(n)` draws `n` distinct rows; it is modelled by a deterministic
  pseudo-random selection driven by a linear-congruential seed.  Every
  property proved about it holds for every seed, hence for any draw of the
  required size.
-/

namespace InsightTrends

/-! ## Definitions -/

/-- One row of the loaded dataset (`load_data`, lines 19-33 list the expected
columns).  `occurrence_date` is a `pd.Timestamp` modelled as an integer time
value (`none` = NaT); the categorical/text columns are strings (`none` = NaN). -/
structure Record where
  occurrence_date : Option Int
  country : Option String
  therapeutic_area_names : Option String
  interaction_type : Option String
  stakeholder_type : Option String
  asset_names : Option String
  stakeholder_names : Option String
  msl_names : Option String
  text : Option String
deriving Repr, DecidableEq, Inhabited

/-- The sidebar state the filtering block (lines 45-97) reads: the two date
bounds (lines 55-56) and the three selectbox values (lines 61, 68, 75). -/
structure FilterCriteria where
  start_date : Int
  end_date : Int
  selected_country : String
  selected_stakeholder_type : String
  selected_interaction_type : String
deriving Repr, DecidableEq

/-- `(ts >= start) & (ts <= end)` on a timestamp cell (lines 84-85); a missing
timestamp (NaT) compares `False` on both sides. -/
def dateInRange (d : Option Int) (s e : Int) : Bool :=
  match d with
  | none => false
  | some x => decide (s ≤ x) && decide (x ≤ e)

/-- `series == sel` on a categorical cell (lines 89, 93, 97); a missing value
(NaN) compares `False`. -/
def catEq (v : Option String) (sel : String) : Bool :=
  match v with
  | none => false
  | some s => s == sel

/-- Date mask, lines 84-85. -/
def dateFilter (c : FilterCriteria) (l : List Record) : List Record :=
  l.filter fun r => dateInRange r.occurrence_date c.start_date c.end_date

/-- Country mask, lines 88-89: skipped when the selectbox holds `'All'`. -/
def countryFilter (c : FilterCriteria) (l : List Record) : List Record :=
  if c.selected_country == "All" then l
  else l.filter fun r => catEq r.country c.selected_country

/-- Stakeholder-type mask, lines 92-93. -/
def stakeholderFilter (c : FilterCriteria) (l : List Record) : List Record :=
  if c.selected_stakeholder_type == "All" then l
  else l.filter fun r => catEq r.stakeholder_type c.selected_stakeholder_type

/-- Interaction-type mask, lines 96-97. -/
def interactionFilter (c : FilterCriteria) (l : List Record) : List Record :=
  if c.selected_interaction_type == "All" then l
  else l.filter fun r => catEq r.interaction_type c.selected_interaction_type

/-- `filtered_data` as built by lines 81-97: the four masks applied in the
script's order to a copy of the loaded data. -/
def filterData (data : List Record) (c : FilterCriteria) : List Record :=
  interactionFilter c (stakeholderFilter c (countryFilter c (dateFilter c data)))

/-- The spec's single conjunctive matching predicate: the record's
`occurrence_date` lies within `[start_date, end_date]` (inclusive both ends)
and every categorical constraint whose selected value is not the `'All'`
sentinel holds as an equality.  Written from the spec's words, to be compared
with `filterData`. -/
def specMatches (c : FilterCriteria) (r : Record) : Bool :=
  dateInRange r.occurrence_date c.start_date c.end_date
    && (c.selected_country == "All" || catEq r.country c.selected_country)
    && (c.selected_stakeholder_type == "All"
          || catEq r.stakeholder_type c.selected_stakeholder_type)
    && (c.selected_interaction_type == "All"
          || catEq r.interaction_type c.selected_interaction_type)

/-- Strict lexicographic comparison of char lists by code point: the order
Python's `sorted` and pandas use on string values. -/
def listCharLt : List Char → List Char → Bool
  | [], [] => false
  | [], _ :: _ => true
  | _ :: _, [] => false
  | a :: as, b :: bs =>
      if a.toNat < b.toNat then true
      else if b.toNat < a.toNat then false
      else listCharLt as bs

/-- Strict lexicographic order on strings by code point. -/
def strLtb (a b : String) : Bool := listCharLt a.data b.data

/-- Insert a string into a sorted list, keeping it sorted (helper for
modelling the ascending key order of `groupby(sort=True)` and of Python's
`sorted`, lines 60, 67, 74). -/
def insertSorted (s : String) : List String → List String
  | [] => [s]
  | x :: xs => if strLtb x s then x :: insertSorted s xs else s :: x :: xs

/-- Ascending insertion sort on strings. -/
def sortStrings : List String → List String
  | [] => []
  | x :: xs => insertSorted x (sortStrings xs)

/-- The distinct non-missing values of column `f`, in ascending order: the
group keys emitted by `groupby(f).size()` with the pandas defaults
`sort=True, dropna=True` (rows whose key cell is NaN are dropped). -/
def groupKeys (l : List Record) (f : Record → Option String) : List String :=
  sortStrings (l.filterMap f).dedup

/-- The size of the group of key `k`: the number of rows whose `f`-cell holds
exactly `k`. -/
def sizeOfGroup (l : List Record) (f : Record → Option String) (k : String) : Nat :=
  (l.filter fun r => decide (f r = some k)).length

/-- `filtered_data.groupby(f).size().reset_index(name='count')` (lines 171,
206, 214, 222, 231 use this shape): one `(key, count)` row per surviving
group, keys ascending. -/
def aggregate_by (l : List Record) (f : Record → Option String) :
    List (String × Nat) :=
  (groupKeys l f).map fun k => (k, sizeOfGroup l f k)

/-- `view['count'].sum()`: total of the per-group counts. -/
def sumCounts (v : List (String × Nat)) : Nat := (v.map Prod.snd).sum

/-- One step of the linear-congruential generator that drives the modelled
random draw (any deterministic stream works; the proved properties hold for
every seed). -/
def lcgNext (seed : Nat) : Nat := (seed * 1103515245 + 12345) % 2147483648

/-- Draw `k` distinct rows: repeatedly pick a pseudo-random position and
remove the picked row, as `DataFrame.sample` does without replacement. -/
def sampleAux : Nat → Nat → List Record → List Record
  | 0, _, _ => []
  | _ + 1, _, [] => []
  | k + 1, seed, x :: xs =>
      (x :: xs).get ⟨seed % (x :: xs).length,
        Nat.mod_lt _ (Nat.succ_pos xs.length)⟩ ::
        sampleAux k (lcgNext seed) ((x :: xs).eraseIdx (seed % (x :: xs).length))

/-- `sample(filtered_records, k)`: line 246 clamps the requested size with
`min(5, len(filtered_data))` before calling `DataFrame.sample`, so the draw
size never exceeds the frame and the call cannot raise. -/
def sample (l : List Record) (k : Nat) (seed : Nat) : List Record :=
  sampleAux (min k l.length) seed l

/-- `text_sample` of line 247: the display draw with the script's fixed
request of 5 rows. -/
def text_sample (l : List Record) (seed : Nat) : List Record := sample l 5 seed

/-- Line 60: `['All'] + sorted(data['country'].unique().tolist())`, modelled
for a `country` column with no missing values: the distinct values of the
column, sorted ascending, behind the prepended `'All'` sentinel. -/
def countryOptions (data : List Record) : List String :=
  "All" :: sortStrings (data.filterMap (·.country)).dedup

/-- The column names of the loaded dataset (lines 31-33). -/
def inputColumns : List String :=
  ["occurrence_date", "country", "therapeutic_area_names", "interaction_type",
   "stakeholder_type", "asset_names", "stakeholder_names", "msl_names", "text"]

/-- The columns of `filtered_data` when `to_csv` runs (line 265): if the
filtered set was nonempty, line 128 (inside the Timeline tab, which executes
before the export section) has assigned the derived `year_month` column into
`filtered_data`, appending it to the schema. -/
def exportColumns (filteredIsEmpty : Bool) : List String :=
  if filteredIsEmpty then inputColumns else inputColumns ++ ["year_month"]

/-- A fully populated record with the given date, country, stakeholder type,
interaction type, stakeholder name and MSL name. -/
def mkRecord (d : Int) (co st it sn msl : String) : Record :=
  { occurrence_date := some d, country := some co,
    therapeutic_area_names := some "Oncology", interaction_type := some it,
    stakeholder_type := some st, asset_names := some "Vibranium",
    stakeholder_names := some sn, msl_names := some msl, text := some "t" }

/-- A record whose `country` column literally holds the string `"All"`. -/
def recAll : Record := mkRecord 1 "All" "Physician" "Meeting" "Alice" "MslA"

/-- A second record with an ordinary country value. -/
def recUS : Record := mkRecord 7 "US" "Nurse" "Call" "Bob" "MslB"

/-- Two-row demo dataset. -/
def demoData : List Record := [recAll, recUS]

/-- A record whose `country` cell is missing (NaN). -/
def noCountryRec : Record := { recAll with country := none }

/-- Criteria selecting only a country, over the date span of `demoData`. -/
def selCountry (co : String) : FilterCriteria :=
  { start_date := 0, end_date := 10, selected_country := co,
    selected_stakeholder_type := "All", selected_interaction_type := "All" }

/-- Criteria with every selectbox on `'All'` and a wide date range. -/
def allCriteria : FilterCriteria := selCountry "All"

/-- Criteria with an inverted date range (`start_date > end_date`). -/
def invCriteria : FilterCriteria :=
  { start_date := 10, end_date := 0, selected_country := "All",
    selected_stakeholder_type := "All", selected_interaction_type := "All" }

/-- Same criteria with the date range replaced — the sidebar with other dates. -/
def withRange (c : FilterCriteria) (s e : Int) : FilterCriteria :=
  { c with start_date := s, end_date := e }

/-- Criteria selecting country `"US"` over the demo date span. -/
def usCriteria : FilterCriteria := selCountry "US"

/-! ## Theorems -/

theorem filterData_eq_filter (data : List Record) (c : FilterCriteria) :
    filterData data c = data.filter (fun r => specMatches c r) := by
  unfold filterData interactionFilter stakeholderFilter countryFilter dateFilter specMatches
  by_cases h1 : c.selected_country == "All" <;>
    by_cases h2 : c.selected_stakeholder_type == "All" <;>
      by_cases h3 : c.selected_interaction_type == "All" <;>
        simp [h1, h2, h3, List.filter_filter, Bool.and_assoc, Bool.and_comm, Bool.and_left_comm]

theorem insertSorted_perm (s : String) (l : List String) :
    (insertSorted s l).Perm (s :: l) := by
  induction l with
  | nil => simp [insertSorted]
  | cons x xs ih =>
    unfold insertSorted
    cases h : strLtb x s with
    | true =>
      rw [if_pos rfl]
      exact (ih.cons x).trans (List.Perm.swap s x xs)
    | false =>
      rw [if_neg Bool.false_ne_true]

theorem sortStrings_perm (l : List String) : (sortStrings l).Perm l := by
  induction l with
  | nil => simp [sortStrings]
  | cons x xs ih =>
    exact (insertSorted_perm x (sortStrings xs)).trans (ih.cons x)

theorem sizeOfGroup_eq_count (l : List Record) (f : Record → Option String)
    (k : String) : sizeOfGroup l f k = (l.filterMap f).count k := by
  induction l with
  | nil => rfl
  | cons r rs ih =>
    unfold sizeOfGroup at *
    cases h : f r with
    | none => simp [List.filterMap_cons, h, List.filter_cons, ih]
    | some v =>
      by_cases hv : v = k
      · simp [List.filterMap_cons, h, List.filter_cons, hv, List.count_cons, ih]
      · simp [List.filterMap_cons, h, List.filter_cons, hv, List.count_cons,
          Option.some_inj, ih]

theorem sumCounts_aggregate_by (l : List Record) (f : Record → Option String) :
    sumCounts (aggregate_by l f) = (l.filterMap f).length := by
  unfold sumCounts aggregate_by groupKeys
  rw [List.map_map]
  have hperm : ((sortStrings (l.filterMap f).dedup).map
      fun k => sizeOfGroup l f k).Perm
        (((l.filterMap f).dedup).map fun k => sizeOfGroup l f k) :=
    (sortStrings_perm _).map _
  have hsum := hperm.sum_eq
  have hcomp : (Prod.snd ∘ fun k => (k, sizeOfGroup l f k))
      = fun k => sizeOfGroup l f k := rfl
  have hcount : (((l.filterMap f).dedup).map fun k => sizeOfGroup l f k)
      = ((l.filterMap f).dedup).map fun k => (l.filterMap f).count k :=
    List.map_congr_left fun k _ => sizeOfGroup_eq_count l f k
  rw [hcomp, hsum, hcount, List.sum_map_count_dedup_eq_length]

theorem sampleAux_length :
    ∀ (k seed : Nat) (l : List Record), k ≤ l.length →
      (sampleAux k seed l).length = k := by
  intro k
  induction k with
  | zero => intro seed l _; rfl
  | succ k ih =>
    intro seed l h
    cases l with
    | nil => simp at h
    | cons x xs =>
      simp only [sampleAux, List.length_cons]
      congr 1
      apply ih
      rw [List.length_eraseIdx_of_lt]
      · simp only [List.length_cons] at h ⊢
        omega
      · exact Nat.mod_lt _ (Nat.succ_pos xs.length)

theorem length_filterMap_of_isSome {α β : Type} (f : α → Option β) :
    ∀ l : List α, (∀ r ∈ l, (f r).isSome) → (l.filterMap f).length = l.length := by
  intro l
  induction l with
  | nil => intro _; rfl
  | cons x xs ih =>
    intro h
    obtain ⟨v, hv⟩ := Option.isSome_iff_exists.mp (h x (List.mem_cons_self x xs))
    rw [List.filterMap_cons, hv]
    simp [ih fun r hr => h r (List.mem_cons_of_mem x hr)]

theorem filter_append_perm_of_disjoint {α : Type} (l : List α) (a b f : α → Bool)
    (hdisj : ∀ x ∈ l, ¬(a x = true ∧ b x = true))
    (hcover : ∀ x ∈ l, f x = (a x || b x)) :
    (l.filter a ++ l.filter b).Perm (l.filter f) := by
  induction l with
  | nil => simp
  | cons x xs ih =>
    have hd := hdisj x (List.mem_cons_self x xs)
    have hc := hcover x (List.mem_cons_self x xs)
    have ih' := ih (fun y hy => hdisj y (List.mem_cons_of_mem x hy))
      (fun y hy => hcover y (List.mem_cons_of_mem x hy))
    rw [List.filter_cons, List.filter_cons, List.filter_cons, hc]
    cases hax : a x <;> cases hbx : b x
    · simpa using ih'
    · simp only [Bool.false_or, cond_true, cond_false]
      exact (List.perm_middle).trans (ih'.cons x)
    · simp only [Bool.true_or, cond_true, cond_false]
      exact (ih'.cons x)
    · exact absurd ⟨hax, hbx⟩ hd

/-- C1 counterexample: a filtered set consisting of one record whose
`country` cell is missing has length 1, but grouping it by `country` drops
the record (`groupby` default `dropna=True`), so the per-group counts sum
to 0, not 1. -/
theorem groupby_drops_null_counterexample :
    filterData [noCountryRec] allCriteria = [noCountryRec] ∧
    sumCounts (aggregate_by (filterData [noCountryRec] allCriteria) (·.country)) = 0 ∧
    (filterData [noCountryRec] allCriteria).length = 1 ∧
    sumCounts (aggregate_by (filterData [noCountryRec] allCriteria) (·.country))
      ≠ (filterData [noCountryRec] allCriteria).length := by
  refine ⟨by decide, by decide, by decide, by decide⟩

/-- C1 (amended): for every filtered record set and single grouping key, the
per-group counts of `aggregate_by` sum to the number of filtered records
whose value in the grouping field is present (non-null); in particular, when
no filtered record has a missing value in the grouping field, the sum equals
the size of the filtered set. -/
theorem aggregate_counts_sum (data : List Record) (c : FilterCriteria)
    (f : Record → Option String) :
    sumCounts (aggregate_by (filterData data c) f)
        = ((filterData data c).filterMap f).length ∧
    ((∀ r ∈ filterData data c, (f r).isSome) →
      sumCounts (aggregate_by (filterData data c) f)
        = (filterData data c).length) := by
  refine ⟨sumCounts_aggregate_by _ f, fun h => ?_⟩
  rw [sumCounts_aggregate_by, length_filterMap_of_isSome f _ h]

theorem aggregate_counts_sum_witness :
    sumCounts (aggregate_by (filterData demoData allCriteria) (·.country))
      = (filterData demoData allCriteria).length :=
  (aggregate_counts_sum demoData allCriteria (·.country)).2 (by decide)

/-- C2: `filtered_data` (lines 81-97) is exactly the records matching the
conjunction of all active constraints — the inclusive date range and every
categorical equality whose selectbox is not `'All'` — and it is a
subsequence of the input, preserving the original relative order. -/
theorem filterData_spec (data : List Record) (c : FilterCriteria) :
    filterData data c = data.filter (fun r => specMatches c r) ∧
    (filterData data c).Sublist data := by
  refine ⟨filterData_eq_filter data c, ?_⟩
  rw [filterData_eq_filter]
  exact List.filter_sublist data

/-- C4 counterexample: when the filtered set is nonempty the exported CSV
carries the derived `year_month` column (assigned at line 128, before the
export at line 265), which is not among the input dataset's columns — the
export schema is not exactly the input column set. -/
theorem export_adds_year_month_counterexample :
    exportColumns false ≠ inputColumns ∧
    "year_month" ∈ exportColumns false ∧
    "year_month" ∉ inputColumns := by
  refine ⟨by decide, by decide, by decide⟩

/-- C4 (amended): the export keeps every input column and adds exactly one
column beyond the input set — the derived `year_month` — and only when the
filtered set is nonempty; an empty filtered set is exported with the input
column set unchanged. -/
theorem export_columns_spec (filteredIsEmpty : Bool) :
    (∀ col ∈ inputColumns, col ∈ exportColumns filteredIsEmpty) ∧
    (∀ col ∈ exportColumns filteredIsEmpty,
      col ∈ inputColumns ∨ (col = "year_month" ∧ filteredIsEmpty = false)) ∧
    (filteredIsEmpty = true → exportColumns filteredIsEmpty = inputColumns) := by
  cases filteredIsEmpty <;> exact ⟨by decide, by decide, by decide⟩

theorem export_columns_spec_witness :
    "country" ∈ exportColumns false ∧
    ("year_month" ∈ inputColumns ∨ ("year_month" = "year_month" ∧ false = false)) ∧
    exportColumns true = inputColumns :=
  ⟨(export_columns_spec false).1 "country" (by decide),
   (export_columns_spec false).2.1 "year_month" (by decide),
   (export_columns_spec true).2.2 rfl⟩

/-- C5: a record with a missing (NaN) value in a field carrying an active
(non-`'All'`) equality filter is excluded from the filtered set — a null never
wildcard-matches an equality constraint (stated for each of the three
filterable fields); and when the country selectbox holds the `'All'` sentinel
the country field plays no part: membership is decided by the date range and
the two other constraints alone. -/
theorem null_field_excluded (data : List Record) (c : FilterCriteria) (r : Record) :
    (c.selected_country ≠ "All" → r.country = none →
      r ∉ filterData data c) ∧
    (c.selected_stakeholder_type ≠ "All" → r.stakeholder_type = none →
      r ∉ filterData data c) ∧
    (c.selected_interaction_type ≠ "All" → r.interaction_type = none →
      r ∉ filterData data c) ∧
    (c.selected_country = "All" →
      (r ∈ filterData data c ↔ r ∈ data ∧
        (dateInRange r.occurrence_date c.start_date c.end_date
          && (c.selected_stakeholder_type == "All"
                || catEq r.stakeholder_type c.selected_stakeholder_type)
          && (c.selected_interaction_type == "All"
                || catEq r.interaction_type c.selected_interaction_type)) = true)) := by
  refine ⟨?_, ?_, ?_, ?_⟩
  · intro hAll hnone hmem
    rw [filterData_eq_filter, List.mem_filter] at hmem
    have hb : (c.selected_country == "All") = false := by
      simpa using hAll
    simp [specMatches, hb, hnone, catEq] at hmem
  · intro hAll hnone hmem
    rw [filterData_eq_filter, List.mem_filter] at hmem
    have hb : (c.selected_stakeholder_type == "All") = false := by
      simpa using hAll
    simp [specMatches, hb, hnone, catEq] at hmem
  · intro hAll hnone hmem
    rw [filterData_eq_filter, List.mem_filter] at hmem
    have hb : (c.selected_interaction_type == "All") = false := by
      simpa using hAll
    simp [specMatches, hb, hnone, catEq] at hmem
  · intro hAll
    rw [filterData_eq_filter, List.mem_filter]
    have hb : (c.selected_country == "All") = true := by
      simpa using hAll
    simp [specMatches, hb]

theorem null_field_excluded_witness :
    noCountryRec ∉ filterData (noCountryRec :: demoData) usCriteria ∧
    (recAll ∈ filterData demoData allCriteria ↔ recAll ∈ demoData ∧
      (dateInRange recAll.occurrence_date allCriteria.start_date allCriteria.end_date
        && (allCriteria.selected_stakeholder_type == "All"
              || catEq recAll.stakeholder_type allCriteria.selected_stakeholder_type)
        && (allCriteria.selected_interaction_type == "All"
              || catEq recAll.interaction_type allCriteria.selected_interaction_type))
          = true) :=
  ⟨(null_field_excluded (noCountryRec :: demoData) usCriteria noCountryRec).1
      (by decide) rfl,
   (null_field_excluded demoData allCriteria recAll).2.2.2 rfl⟩

/-- C6: with an inverted date range (`start_date > end_date`) the filtered
set is empty — no record satisfies both inclusive bounds — and no error is
raised (the model is a total function). -/
theorem filter_empty_of_inverted_range (data : List Record) (c : FilterCriteria)
    (h : c.end_date < c.start_date) : filterData data c = [] := by
  rw [filterData_eq_filter]
  rw [List.filter_eq_nil_iff]
  intro r _ hmem
  have hdate : dateInRange r.occurrence_date c.start_date c.end_date = true := by
    simp only [specMatches, Bool.and_eq_true] at hmem
    exact hmem.1.1.1
  rcases hr : r.occurrence_date with _ | x
  · rw [hr] at hdate
    simp [dateInRange] at hdate
  · rw [hr] at hdate
    simp only [dateInRange, Bool.and_eq_true, decide_eq_true_eq] at hdate
    omega

theorem filter_empty_of_inverted_range_witness :
    filterData demoData invCriteria = [] :=
  filter_empty_of_inverted_range demoData invCriteria (by decide)

/-- C7: filtering is idempotent — applying the same criteria to an
already-filtered set changes nothing. -/
theorem filterData_idempotent (data : List Record) (c : FilterCriteria) :
    filterData (filterData data c) c = filterData data c := by
  rw [filterData_eq_filter data c, filterData_eq_filter, List.filter_filter]
  simp [Bool.and_self]

/-- C8: for two date ranges that are disjoint on the data and together cover
exactly the records the full range covers, filtering by the two ranges (with
the same categorical selections) and taking the union reconstructs the full
filtered set with no duplicates and no omissions (a permutation of it). -/
theorem filter_range_partition (data : List Record) (c : FilterCriteria)
    (s1 e1 s2 e2 : Int)
    (hdisj : ∀ r ∈ data, ¬(dateInRange r.occurrence_date s1 e1 = true ∧
        dateInRange r.occurrence_date s2 e2 = true))
    (hcover : ∀ r ∈ data, dateInRange r.occurrence_date c.start_date c.end_date
        = (dateInRange r.occurrence_date s1 e1
            || dateInRange r.occurrence_date s2 e2)) :
    (filterData data (withRange c s1 e1) ++
        filterData data (withRange c s2 e2)).Perm (filterData data c) := by
  rw [filterData_eq_filter, filterData_eq_filter, filterData_eq_filter]
  apply filter_append_perm_of_disjoint
  · intro r hr hand
    obtain ⟨h1, h2⟩ := hand
    simp only [specMatches, withRange, Bool.and_eq_true] at h1 h2
    exact hdisj r hr ⟨h1.1.1.1, h2.1.1.1⟩
  · intro r hr
    simp only [specMatches, withRange]
    rw [hcover r hr]
    cases dateInRange r.occurrence_date s1 e1 <;>
      cases dateInRange r.occurrence_date s2 e2 <;>
        cases (c.selected_country == "All" || catEq r.country c.selected_country) <;>
          simp

theorem filter_range_partition_witness :
    (filterData demoData (withRange allCriteria 0 5) ++
        filterData demoData (withRange allCriteria 6 10)).Perm
      (filterData demoData allCriteria) :=
  filter_range_partition demoData allCriteria 0 5 6 10 (by decide) (by decide)

/-- C9: the display draw of lines 244-247 returns exactly
`min(k, len(filtered_records))` records for any requested size `k` and never
fails: for `k = 0` and for an empty filtered set it returns the empty list
(shown for every seed of the modelled random source). -/
theorem sample_spec (l : List Record) (k seed : Nat) :
    (sample l k seed).length = min k l.length ∧
    sample l 0 seed = [] ∧
    sample ([] : List Record) k seed = [] := by
  refine ⟨sampleAux_length _ seed l (Nat.min_le_right k l.length), ?_, ?_⟩
  · rw [sample, Nat.zero_min]
    rfl
  · rw [sample]
    cases k <;> rfl

/-- C10: the `'All'` sentinel collides with a data value `"All"`: for a
dataset containing a record whose `country` is literally `"All"`, every
selectable option of the country selectbox (line 60) either applies no
constraint or selects a different country, so no selection isolates that
record; selecting `"All"` returns the whole date-filtered set; and in
general a criteria whose country selection is `"All"` skips the country
mask entirely. -/
theorem all_sentinel_collision :
    recAll.country = some "All" ∧
    filterData demoData (selCountry "All") = demoData ∧
    (∀ copt ∈ countryOptions demoData,
      filterData demoData (selCountry copt) ≠ [recAll]) ∧
    (∀ (data : List Record) (c : FilterCriteria), c.selected_country = "All" →
      filterData data c
        = interactionFilter c (stakeholderFilter c (dateFilter c data))) := by
  refine ⟨rfl, by decide, by decide, ?_⟩
  intro data c hAll
  rw [filterData, countryFilter, if_pos (by simp [hAll])]

theorem all_sentinel_collision_witness :
    filterData demoData (selCountry "All") ≠ [recAll] ∧
    filterData demoData allCriteria
      = interactionFilter allCriteria
          (stakeholderFilter allCriteria (dateFilter allCriteria demoData)) :=
  ⟨all_sentinel_collision.2.2.1 "All" (by decide),
   all_sentinel_collision.2.2.2 demoData allCriteria rfl⟩

end InsightTrends
